import Mathlib

/-!
A shallow embedding of the intent-classification and response-generation
pipeline of `src/backend/services.py` (class `CustomerServiceAgent`), together
with the pieces of `src/backend/config.py` and `src/backend/models.py` it
reads.  Python floats are modelled as exact rationals (`ℚ`), Python `None` as
`Option`, raised exceptions as `Except Unit`, and the external collaborators
(database reads, the OpenAI call, the conversation store) as explicit
environment fields.  String handling is restricted to the ASCII fragment the
repository actually uses: `pyLower` stands in for `str.lower`, and the
`\s` / `\w` regex classes are modelled by their ASCII definitions.
-/

namespace AutoCS

set_option maxRecDepth 8000

/-- Intent classification types, from `models.py` (`class IntentType`). -/
inductive IntentType where
  | orderStatus
  | productInfo
  | returnRequest
  | faq
  | storeHours
  | contact
  | greeting
  | goodbye
  | unknown
deriving DecidableEq, Repr

/-- The string value of each enum member (`IntentType` is a `str` enum). -/
def IntentType.value : IntentType → String
  | .orderStatus => "order_status"
  | .productInfo => "product_info"
  | .returnRequest => "return_request"
  | .faq => "faq"
  | .storeHours => "store_hours"
  | .contact => "contact"
  | .greeting => "greeting"
  | .goodbye => "goodbye"
  | .unknown => "unknown"

/-- Value-to-member lookup, i.e. the Python call `IntentType(name)`;
`none` models the `ValueError` raised on an unknown value. -/
def IntentType.ofValue (s : String) : Option IntentType :=
  match s with
  | "order_status" => some .orderStatus
  | "product_info" => some .productInfo
  | "return_request" => some .returnRequest
  | "faq" => some .faq
  | "store_hours" => some .storeHours
  | "contact" => some .contact
  | "greeting" => some .greeting
  | "goodbye" => some .goodbye
  | "unknown" => some .unknown
  | _ => none

/-- The intent pattern table of `_load_intent_patterns` (services.py, lines
38-73).  A Python dict iterates in insertion order, so a list of pairs keeps
the same deterministic iteration order. -/
def intentPatterns : List (IntentType × List String) :=
  [ (.orderStatus,
      ["order status", "track order", "where is my order",
       "order tracking", "delivery status", "shipping status"]),
    (.productInfo,
      ["product information", "tell me about", "what is",
       "product details", "specifications", "price"]),
    (.returnRequest,
      ["return", "refund", "exchange", "send back",
       "return policy", "return item"]),
    (.faq,
      ["help", "question", "how to", "what if",
       "can you help", "support"]),
    (.storeHours,
      ["store hours", "opening hours", "when are you open",
       "business hours", "store time"]),
    (.contact,
      ["contact", "phone number", "email", "address",
       "customer service", "support"]),
    (.greeting,
      ["hello", "hi", "hey", "good morning", "good afternoon",
       "good evening", "greetings"]),
    (.goodbye,
      ["bye", "goodbye", "see you", "thanks", "thank you",
       "farewell", "have a good day"]) ]

/-- Python's `str.lower`, on the ASCII fragment the repository uses
(computable structurally, unlike core `String.toLower`). -/
def pyLower (s : String) : String :=
  String.mk (s.data.map Char.toLower)

/-- Python's substring test `pat in s` on lists of code points: `pat` is a
contiguous substring of `s` (the empty pattern is contained in anything). -/
def containsSub (s pat : List Char) : Bool :=
  match s with
  | [] => pat.isEmpty
  | _ :: t => pat.isPrefixOf s || containsSub t pat

/-- Python's `pat in s` on strings. -/
def pyIn (pat s : String) : Bool :=
  containsSub s.data pat.data

/-- The candidate confidence `len(pattern) / len(message_lower)` computed at
services.py line 116 (exact rational in place of a Python float). -/
def patConf (pat ml : String) : ℚ :=
  (pat.length : ℚ) / (ml.length : ℚ)

/-- The update performed by lines 117-119: replace the running best match
only on a strictly larger confidence (ties keep the earlier pair). -/
def updBest (best cand : IntentType × ℚ) : IntentType × ℚ :=
  if cand.2 > best.2 then cand else best

/-- The nested `for intent, patterns / for pattern` scan of
`_classify_intent` (services.py lines 113-119), generic in the table. -/
def scanTable (ml : String) (table : List (IntentType × List String))
    (best : IntentType × ℚ) : IntentType × ℚ :=
  match table with
  | [] => best
  | ip :: rest =>
      scanTable ml rest
        (ip.2.foldl
          (fun b pat => if pyIn pat ml then updBest b (ip.1, patConf pat ml) else b)
          best)

/-- The pattern-matching step of `_classify_intent` (services.py lines
107-119): lower-case the message, scan the table, starting from
`(unknown, 0.0)`. -/
def classifyByPattern (message : String) : IntentType × ℚ :=
  scanTable (pyLower message) intentPatterns (IntentType.unknown, 0)

/-- The flattened list of matching `(intent, confidence)` pairs of a table,
in table order: the candidates the scan of `scanTable` considers. -/
def candList (ml : String) : List (IntentType × List String) → List (IntentType × ℚ)
  | [] => []
  | ip :: rest =>
      ((ip.2.filter (fun pat => pyIn pat ml)).map (fun pat => (ip.1, patConf pat ml)))
        ++ candList ml rest

/-- The matching candidates of a message, in table order. -/
def candidates (message : String) : List (IntentType × ℚ) :=
  candList (pyLower message) intentPatterns

lemma inner_foldl_eq (ml : String) (i : IntentType) (ps : List String)
    (b : IntentType × ℚ) :
    ps.foldl (fun b pat => if pyIn pat ml then updBest b (i, patConf pat ml) else b) b
      = ((ps.filter (fun pat => pyIn pat ml)).map
          (fun pat => (i, patConf pat ml))).foldl updBest b := by
  induction ps generalizing b with
  | nil => rfl
  | cons p ps ih =>
      by_cases h : pyIn p ml
      · simp [List.foldl_cons, List.filter_cons, h, ih]
      · simp [List.foldl_cons, List.filter_cons, h, ih]

lemma scanTable_eq (ml : String) (table : List (IntentType × List String))
    (b : IntentType × ℚ) :
    scanTable ml table b = (candList ml table).foldl updBest b := by
  induction table generalizing b with
  | nil => rfl
  | cons ip rest ih =>
      simp [scanTable, candList, List.foldl_append, inner_foldl_eq, ih]

lemma classifyByPattern_eq (message : String) :
    classifyByPattern message
      = (candidates message).foldl updBest (IntentType.unknown, 0) := by
  simp [classifyByPattern, candidates, scanTable_eq]

lemma foldl_updBest_of_le (l : List (IntentType × ℚ)) (b : IntentType × ℚ)
    (h : ∀ x ∈ l, x.2 ≤ b.2) : l.foldl updBest b = b := by
  induction l with
  | nil => rfl
  | cons x l ih =>
      have hx : ¬ x.2 > b.2 := not_lt.mpr (h x (by simp))
      simp only [List.foldl_cons, updBest, hx, if_false]
      exact ih (fun y hy => h y (by simp [hy]))

lemma foldl_updBest_lt (l : List (IntentType × ℚ)) (b : IntentType × ℚ)
    (q : ℚ) (hb : b.2 < q) (h : ∀ x ∈ l, x.2 < q) :
    (l.foldl updBest b).2 < q := by
  induction l generalizing b with
  | nil => exact hb
  | cons x l ih =>
      simp only [List.foldl_cons, updBest]
      by_cases hx : x.2 > b.2
      · simp only [hx, if_true]
        exact ih x (h x (by simp)) (fun y hy => h y (by simp [hy]))
      · simp only [hx, if_false]
        exact ih b hb (fun y hy => h y (by simp [hy]))

lemma foldl_updBest_le_of_ub (l : List (IntentType × ℚ)) (b : IntentType × ℚ)
    (q : ℚ) (hb : b.2 ≤ q) (h : ∀ x ∈ l, x.2 ≤ q) :
    (l.foldl updBest b).2 ≤ q := by
  induction l generalizing b with
  | nil => exact hb
  | cons x l ih =>
      simp only [List.foldl_cons, updBest]
      by_cases hx : x.2 > b.2
      · simp only [hx, if_true]
        exact ih x (h x (by simp)) (fun y hy => h y (by simp [hy]))
      · simp only [hx, if_false]
        exact ih b hb (fun y hy => h y (by simp [hy]))

lemma foldl_updBest_ge_init (l : List (IntentType × ℚ)) (b : IntentType × ℚ) :
    b.2 ≤ (l.foldl updBest b).2 := by
  induction l generalizing b with
  | nil => exact le_refl _
  | cons x l ih =>
      simp only [List.foldl_cons, updBest]
      by_cases hx : x.2 > b.2
      · simp only [hx, if_true]
        exact le_trans (le_of_lt hx) (ih x)
      · simp only [hx, if_false]
        exact ih b

lemma foldl_updBest_first_max (l₁ l₂ : List (IntentType × ℚ))
    (m b : IntentType × ℚ) (hb : b.2 < m.2)
    (h1 : ∀ y ∈ l₁, y.2 < m.2) (h2 : ∀ y ∈ l₂, y.2 ≤ m.2) :
    (l₁ ++ m :: l₂).foldl updBest b = m := by
  rw [List.foldl_append, List.foldl_cons]
  have hlt : (l₁.foldl updBest b).2 < m.2 := foldl_updBest_lt l₁ b m.2 hb h1
  have hstep : updBest (l₁.foldl updBest b) m = m := by
    simp [updBest, hlt]
  rw [hstep]
  exact foldl_updBest_of_le l₂ m h2

/-! ### Entity extractors (services.py lines 354-383)

The three regexes of `_extract_order_id` and the quoted-text regex of
`_extract_product_name` are modelled directly.  `\s` and `\w` are the ASCII
character classes (the repository's data is ASCII); `re.IGNORECASE` literals
compare after lower-casing both sides; `re.search` attempts the pattern at
every start position from the left and keeps the first success.  In each of
the three order-id regexes a greedy `\s+` / `[:\s]+` run is followed by a
character the run's class cannot match, so the backtracking-free maximal-run
reading below coincides with Python's semantics. -/

/-- ASCII `\s`: space, tab, newline, carriage return, vertical tab, form feed. -/
def pyIsSpace (c : Char) : Bool :=
  c = ' ' || c = '\t' || c = '\n' || c = '\r' || c.toNat = 11 || c.toNat = 12

/-- ASCII `\w`: letters, digits, underscore. -/
def pyIsWord (c : Char) : Bool :=
  (('a' ≤ c && c ≤ 'z') || ('A' ≤ c && c ≤ 'Z') || ('0' ≤ c && c ≤ '9') || c = '_')

/-- Consume a literal case-insensitively (the `re.IGNORECASE` flag); returns
the remaining input on success. -/
def matchLitCI : List Char → List Char → Option (List Char)
  | [], s => some s
  | _ :: _, [] => none
  | l :: ls, c :: cs => if l.toLower = c.toLower then matchLitCI ls cs else none

/-- Attempt `order\s+(\w+)` at the start of the input; returns group 1. -/
def tryPat1 (s : List Char) : Option String := do
  let s1 ← matchLitCI "order".data s
  let (ws, s2) := s1.span pyIsSpace
  if ws.isEmpty then none else
  let (w, _) := s2.span pyIsWord
  if w.isEmpty then none else some (String.mk w)

/-- Attempt `orderid[:\s]+(\w+)` at the start of the input; returns group 1. -/
def tryPat2 (s : List Char) : Option String := do
  let s1 ← matchLitCI "orderid".data s
  let (sep, s2) := s1.span (fun c => c = ':' || pyIsSpace c)
  if sep.isEmpty then none else
  let (w, _) := s2.span pyIsWord
  if w.isEmpty then none else some (String.mk w)

/-- Attempt `order\s+id[:\s]+(\w+)` at the start of the input; returns group 1. -/
def tryPat3 (s : List Char) : Option String := do
  let s1 ← matchLitCI "order".data s
  let (ws, s2) := s1.span pyIsSpace
  if ws.isEmpty then none else
  let s3 ← matchLitCI "id".data s2
  let (sep, s4) := s3.span (fun c => c = ':' || pyIsSpace c)
  if sep.isEmpty then none else
  let (w, _) := s4.span pyIsWord
  if w.isEmpty then none else some (String.mk w)

/-- `re.search`: attempt the pattern at every position, leftmost match wins. -/
def reSearch (att : List Char → Option String) : List Char → Option String
  | [] => att []
  | c :: t =>
      match att (c :: t) with
      | some r => some r
      | none => reSearch att t

/-- `_extract_order_id` (services.py lines 354-368): try the three patterns
in order, return the first match's captured token. -/
def extractOrderId (message : String) : Option String :=
  match reSearch tryPat1 message.data with
  | some r => some r
  | none =>
      match reSearch tryPat2 message.data with
      | some r => some r
      | none => reSearch tryPat3 message.data

/-- The search for `"([^"]+)"` in `_extract_product_name`: first position
holding a quote, a non-empty run of non-quotes, and a closing quote. -/
def findQuoted : List Char → Option String
  | [] => none
  | c :: t =>
      if c = '"' then
        let body := t.takeWhile (fun d => d ≠ '"')
        let rest := t.dropWhile (fun d => d ≠ '"')
        match rest with
        | _ :: _ => if body.isEmpty then findQuoted t else some (String.mk body)
        | [] => findQuoted t
      else findQuoted t

/-- The keyword list of `_extract_product_name` (services.py line 378). -/
def productKeywords : List String :=
  ["rtx", "geforce", "shield", "jetson", "graphics card", "gpu"]

/-- `_extract_product_name` (services.py lines 370-383): quoted text first,
otherwise the first keyword occurring in the lower-cased message. -/
def extractProductName (message : String) : Option String :=
  match findQuoted message.data with
  | some q => some q
  | none => productKeywords.find? (fun k => pyIn (pyLower k) (pyLower message))

/-! ### External classifier fallback (services.py lines 131-170) -/

/-- Python's `str.strip()` on the ASCII whitespace fragment (computable
structurally, unlike core `String.trim`). -/
def pyStrip (s : String) : String :=
  String.mk (((s.data.dropWhile pyIsSpace).reverse.dropWhile pyIsSpace).reverse)

/-- Helper for `splitOnComma`: `acc` holds the current piece reversed. -/
def splitCommaAux : List Char → List Char → List String
  | [], acc => [String.mk acc.reverse]
  | c :: t, acc =>
      if c = ',' then String.mk acc.reverse :: splitCommaAux t []
      else splitCommaAux t (c :: acc)

/-- Python's `s.split(',')`: one piece per comma-separated segment (the empty
string yields `[""]`, exactly as in Python). -/
def splitOnComma (s : String) : List String :=
  splitCommaAux s.data []

/-- Numeric value of a digit run (most significant first). -/
def digitsVal (ds : List Char) : ℕ :=
  ds.foldl (fun n d => 10 * n + (d.toNat - 48)) 0

/-- Mantissa of a decimal literal: `d+ [. d*]` or `. d+`; returns its exact
value and the unconsumed input. -/
def parseMantissa (cs : List Char) : Option (ℚ × List Char) :=
  let (ip, r1) := cs.span Char.isDigit
  match r1 with
  | '.' :: t =>
      let (fp, r2) := t.span Char.isDigit
      if ip.isEmpty && fp.isEmpty then none
      else some ((digitsVal ip : ℚ) + (digitsVal fp : ℚ) / ((10 : ℚ) ^ fp.length), r2)
  | _ => if ip.isEmpty then none else some ((digitsVal ip : ℚ), r1)

/-- Optional exponent suffix `[eE][+-]?d+`; the whole rest must be consumed. -/
def parseExp : List Char → Option ℤ
  | [] => some 0
  | c :: t =>
      if c = 'e' || c = 'E' then
        let (sg, t2) : ℤ × List Char :=
          match t with
          | '+' :: u => (1, u)
          | '-' :: u => (-1, u)
          | _ => (1, t)
        let (ds, r) := t2.span Char.isDigit
        if ds.isEmpty || !r.isEmpty then none else some (sg * (digitsVal ds : ℤ))
      else none

/-- Python's `float(s)` restricted to signed decimal/scientific literals (the
only shapes a well-formed classifier reply can carry; `inf`, `nan` and
underscore separators are not modelled), computed exactly in `ℚ` in place of
IEEE rounding.  `none` models the `ValueError` on any other input. -/
def parseFloat (s : String) : Option ℚ :=
  let (sign, cs) : ℚ × List Char :=
    match s.data with
    | '+' :: t => (1, t)
    | '-' :: t => (-1, t)
    | cs => (1, cs)
  match parseMantissa cs with
  | none => none
  | some (m, rest) =>
      match parseExp rest with
      | none => none
      | some e => some (sign * m * (10 : ℚ) ^ e)

/-- The parse of the model reply in `_classify_with_openai` (lines 163-166):
strip, split on commas into exactly two pieces (the tuple unpacking of
`result.split(',')` raises otherwise), map the left piece to an intent value
and the right piece to a float.  `none` models any of the raised errors. -/
def parseClassification (content : String) : Option (IntentType × ℚ) :=
  match splitOnComma (pyStrip content) with
  | [a, b] => do
      let i ← IntentType.ofValue (pyStrip a)
      let c ← parseFloat (pyStrip b)
      pure (i, c)
  | _ => none

/-- An order record as returned by `database.get_order_by_id` /
`get_orders_by_customer`; only the fields the handlers read are kept. -/
structure Order where
  orderId : String
  productName : String
  orderStatus : String
  returnStatus : Option String
deriving DecidableEq, Repr

/-- A product record as returned by `database.search_products`; only the
fields `_handle_product_info` reads are kept. -/
structure Product where
  name : String
  category : String
  price : ℚ
deriving DecidableEq, Repr

/-- A conversation turn: the arguments `process_message` hands to
`_store_conversation` (services.py line 86). -/
structure ConversationTurn where
  sessionId : String
  customerId : Option String
  message : String
  response : String
  intent : IntentType
  confidence : ℚ
deriving DecidableEq, Repr

/-- The environment of a request: the Data Access Collaborator reads, the
settings fields the pipeline consults (`config.py`), the outcome of the
awaited external-classifier call, and the conversation-store operation.
`Except.error ()` models a raised exception. -/
structure Env where
  getOrderById : String → Except Unit (Option Order)
  getOrdersByCustomer : String → Except Unit (List Order)
  searchProducts : String → Nat → Except Unit (List Product)
  openaiApiKey : String
  minConfidence : ℚ
  externalResponse : Except Unit String
  appendTurn : ConversationTurn → Except Unit Unit

/-- `settings.MIN_CONFIDENCE` default (config.py line 43). -/
def MIN_CONFIDENCE : ℚ := 7/10

/-- `_classify_with_openai` (services.py lines 131-170): skip with
`(unknown, 0.0)` when no credential is configured (Python truthiness of
`settings.OPENAI_API_KEY`: the empty string is falsy); otherwise any service
failure or parse failure is caught by the `except` and mapped to
`(unknown, 0.0)`. -/
def classifyWithOpenai (env : Env) (_message : String) : IntentType × ℚ :=
  if env.openaiApiKey = "" then (IntentType.unknown, 0)
  else
    match env.externalResponse with
    | .error _ => (IntentType.unknown, 0)
    | .ok content =>
        match parseClassification content with
        | some r => r
        | none => (IntentType.unknown, 0)

/-- `_classify_intent` (services.py lines 104-129): pattern scan, fallback to
the external classifier when the best confidence is below the threshold, and
the final `min(best_confidence, 1.0)` clamp.  The body's own exception
sources are all caught at inner layers, so the surrounding `try` is inert in
the model. -/
def classifyIntent (env : Env) (message : String) : IntentType × ℚ :=
  let best := classifyByPattern message
  let best := if best.2 < env.minConfidence then classifyWithOpenai env message else best
  (best.1, min best.2 1)

/-! ### Intent response handlers (services.py lines 201-352) -/

/-- A handler result: the `{"message": ..., "suggested_actions": [...]}`
dict every handler returns. -/
structure Response where
  message : String
  suggestedActions : List String
deriving DecidableEq, Repr

/-- Python truthiness of an optional string (`if customer_id:` et al.):
`None` and the empty string are falsy. -/
def pyTruthy : Option String → Bool
  | none => false
  | some s => !s.isEmpty

/-- Stand-in for Python's rendering of the float `p['price']` inside an
f-string; the claims below never depend on its exact output. -/
def priceStr (q : ℚ) : String :=
  toString q.num ++ (if q.den = 1 then "" else "/" ++ toString q.den)

/-- `_handle_order_status` (services.py lines 201-241). -/
def handleOrderStatus (env : Env) (message : String) (customerId : Option String) :
    Except Unit Response := do
  match extractOrderId message with
  | some oid => do
      let order? ← env.getOrderById oid
      match order? with
      | some order =>
          let statusText :=
            "Your order " ++ oid ++ " is currently " ++ order.orderStatus ++ "."
          let statusText :=
            if pyTruthy order.returnStatus then
              statusText ++ " Return status: " ++ order.returnStatus.getD "" ++ "."
            else statusText
          pure { message := statusText,
                 suggestedActions :=
                   ["Track Another Order", "View Order Details", "Contact Support"] }
      | none =>
          pure { message := "I couldn\x27t find order " ++ oid ++
                   ". Please check the order ID and try again.",
                 suggestedActions := ["Check Order ID", "Contact Support"] }
  | none =>
      if pyTruthy customerId then do
        let orders ← env.getOrdersByCustomer (customerId.getD "")
        if orders.isEmpty then
          pure { message := "I couldn\x27t find any orders for your account. " ++
                   "Please provide an order ID or contact support.",
                 suggestedActions := ["Provide Order ID", "Contact Support"] }
        else
          let recentOrders := orders.take 3
          let orderList := String.intercalate "\n"
            (recentOrders.map (fun o =>
              "• " ++ o.orderId ++ " - " ++ o.productName ++ " (" ++ o.orderStatus ++ ")"))
          pure { message := "Here are your recent orders:\n" ++ orderList ++
                   "\n\nPlease provide an order ID for detailed status.",
                 suggestedActions := ["Provide Order ID", "View All Orders"] }
      else
        pure { message :=
                 "To check your order status, please provide your order ID or customer ID.",
               suggestedActions :=
                 ["Provide Order ID", "Provide Customer ID", "Contact Support"] }

/-- `_handle_product_info` (services.py lines 243-265). -/
def handleProductInfo (env : Env) (message : String) : Except Unit Response := do
  match extractProductName message with
  | some productName => do
      let products ← env.searchProducts productName 5
      if products.isEmpty then
        pure { message := "I couldn\x27t find any products matching \x27" ++ productName ++
                 "\x27. Please try a different search term.",
               suggestedActions :=
                 ["Try Different Search", "Browse Categories", "Contact Support"] }
      else
        let productList := String.intercalate "\n"
          (products.map (fun p =>
            "• " ++ p.name ++ " - $" ++ priceStr p.price ++ " (" ++ p.category ++ ")"))
        pure { message := "Here are products matching \x27" ++ productName ++ "\x27:\n" ++
                 productList,
               suggestedActions :=
                 ["View Product Details", "Search Another Product", "Browse Categories"] }
  | none =>
      pure { message := "I\x27d be happy to help you find product information. " ++
               "What product are you looking for?",
             suggestedActions :=
               ["Search Products", "Browse Categories", "View Featured Products"] }

/-- `_handle_return_request` (services.py lines 267-293). -/
def handleReturnRequest (env : Env) (message : String) (_customerId : Option String) :
    Except Unit Response := do
  match extractOrderId message with
  | some oid => do
      let order? ← env.getOrderById oid
      match order? with
      | some order =>
          if order.orderStatus = "Delivered" then
            pure { message := "Your order " ++ oid ++
                     " is eligible for return. Please provide a reason for the return.",
                   suggestedActions :=
                     ["Provide Return Reason", "View Return Policy", "Contact Support"] }
          else
            pure { message := "Your order " ++ oid ++ " is currently " ++
                     order.orderStatus ++ ". Returns are only available for delivered orders.",
                   suggestedActions := ["Check Order Status", "Contact Support"] }
      | none =>
          pure { message := "I couldn\x27t find order " ++ oid ++
                   ". Please check the order ID and try again.",
                 suggestedActions := ["Check Order ID", "Contact Support"] }
  | none =>
      pure { message := "To process a return, please provide your order ID.",
             suggestedActions := ["Provide Order ID", "View Return Policy", "Contact Support"] }

/-- The FAQ keyword table of `_handle_faq` (services.py lines 298-304), in
dict insertion order. -/
def faqResponses : List (String × String) :=
  [ ("return policy",
     "We accept returns within 30 days of purchase. Items must be in original condition with tags attached."),
    ("shipping",
     "We offer free shipping on orders over $50. Standard delivery takes 3-5 business days."),
    ("payment",
     "We accept all major credit cards, PayPal, and bank transfers."),
    ("warranty",
     "All products come with a 1-year manufacturer warranty."),
    ("contact",
     "You can reach us at support@nvidia.com or call 1-800-NVIDIA-1.") ]

/-- `_handle_faq` (services.py lines 295-317): first keyword contained in the
lower-cased message wins, in table order. -/
def handleFaq (message : String) : Response :=
  match faqResponses.find? (fun kv => pyIn kv.1 (pyLower message)) with
  | some kv =>
      { message := kv.2,
        suggestedActions := ["Ask Another Question", "Contact Support", "View Full FAQ"] }
  | none =>
      { message := "I\x27d be happy to help! What would you like to know? " ++
          "You can ask about our return policy, shipping, payment methods, or warranty information.",
        suggestedActions :=
          ["Return Policy", "Shipping Info", "Payment Methods", "Warranty Info", "Contact Support"] }

/-- `_handle_store_hours` (services.py lines 319-324). -/
def handleStoreHours : Response :=
  { message := "Our store hours are:\n• Monday to Friday: 9 AM - 6 PM\n• Saturday: 10 AM - 4 PM\n• Sunday: Closed\n\nWe\x27re here to help during business hours!",
    suggestedActions := ["Contact Us", "View Products", "Check Order Status"] }

/-- `_handle_contact` (services.py lines 326-331). -/
def handleContact : Response :=
  { message := "You can contact us through:\n• Email: support@nvidia.com\n• Phone: 1-800-NVIDIA-1\n• Live Chat: Available during business hours\n• Address: 2788 San Tomas Expressway, Santa Clara, CA 95051",
    suggestedActions := ["Email Support", "Call Us", "Live Chat", "Visit Store"] }

/-- `_handle_greeting` (services.py lines 333-338). -/
def handleGreeting : Response :=
  { message := "Hello! I\x27m your NVIDIA customer service assistant. How can I help you today?",
    suggestedActions :=
      ["Check Order Status", "Product Information", "Return Request", "General Help"] }

/-- `_handle_goodbye` (services.py lines 340-345). -/
def handleGoodbye : Response :=
  { message := "Thank you for contacting NVIDIA customer service! Have a great day!",
    suggestedActions := ["Rate Service", "Contact Again", "Visit Website"] }

/-- `_handle_unknown` (services.py lines 347-352). -/
def handleUnknown (_message : String) : Response :=
  { message := "I\x27m not sure I understand your request. Could you please rephrase your question or choose from the options below?",
    suggestedActions :=
      ["Check Order Status", "Product Information", "Return Request", "Contact Support", "General Help"] }

/-- The `if/elif` dispatch inside `_generate_response` (services.py lines
175-192), before its `except`: the handler itself may raise (propagated
here as `Except.error`). -/
def handleIntent (env : Env) (intent : IntentType) (message : String)
    (customerId : Option String) : Except Unit Response :=
  match intent with
  | .orderStatus => handleOrderStatus env message customerId
  | .productInfo => handleProductInfo env message
  | .returnRequest => handleReturnRequest env message customerId
  | .faq => pure (handleFaq message)
  | .storeHours => pure handleStoreHours
  | .contact => pure handleContact
  | .greeting => pure handleGreeting
  | .goodbye => pure handleGoodbye
  | .unknown => pure (handleUnknown message)

/-- The fixed reply returned by the `except` of `_generate_response`
(services.py lines 194-199). -/
def apologyResponse : Response :=
  { message := "I apologize, but I couldn\x27t process your request. Please try rephrasing your question.",
    suggestedActions := ["Contact Support", "Try Again"] }

/-- `_generate_response` (services.py lines 172-199): dispatch by intent and
catch any exception of the dispatched handler, replacing it by the fixed
apology reply.  Total: never raises to `process_message`. -/
def generateResponse (env : Env) (message : String) (intent : IntentType)
    (customerId : Option String) (_sessionId : Option String) : Response :=
  match handleIntent env intent message customerId with
  | .ok r => r
  | .error _ => apologyResponse

/-! ### Conversation orchestrator (services.py lines 75-102, 385-391) -/

/-- Modelled from the spec: the body of the repository's
`_store_conversation` is a stub that only writes a log line ("This would
store in the database in a real implementation"), so the Conversation Log
Collaborator's `append(ConversationTurn)` operation of spec section 6 is
taken as the abstract environment operation `Env.appendTurn`.  The
`try/except` that swallows its failures (and only logs them) is the
source's own (services.py lines 387-391). -/
def storeConversation (env : Env) (turn : ConversationTurn) : Unit :=
  match env.appendTurn turn with
  | .ok _ => ()
  | .error _ => ()

/-- The result dict of `process_message` (services.py lines 88-93). -/
structure PMResult where
  message : String
  intent : IntentType
  confidence : ℚ
  suggestedActions : List String
deriving DecidableEq, Repr

/-- The fixed degraded response of the top-level `except` of
`process_message` (services.py lines 95-102).  In this embedding every step
of the `try` body is total (`_classify_intent`, `_generate_response` and
`_store_conversation` each catch their own exceptions), so the handler is
unreachable; the value is kept for stating the spec's fail-safe claims. -/
def degradedResponse : PMResult :=
  { message := "I apologize, but I\x27m experiencing technical difficulties. Please try again later or contact our support team.",
    intent := IntentType.unknown,
    confidence := 0,
    suggestedActions := ["Contact Support", "Try Again"] }

/-- `process_message` (services.py lines 75-102): classify, generate the
response, store the conversation when a session id is supplied (Python
truthiness), and assemble the result dict.  The second component records the
`ConversationTurn` handed to the store, so the logging side effect is
observable in the embedding. -/
def processMessage (env : Env) (message : String)
    (customerId sessionId : Option String) : PMResult × Option ConversationTurn :=
  let ic := classifyIntent env message
  let response := generateResponse env message ic.1 customerId sessionId
  let turn? : Option ConversationTurn :=
    if pyTruthy sessionId then
      some { sessionId := sessionId.getD "", customerId := customerId,
             message := message, response := response.message,
             intent := ic.1, confidence := ic.2 }
    else none
  let _ := turn?.map (fun t => storeConversation env t)
  ({ message := response.message, intent := ic.1, confidence := ic.2,
     suggestedActions := response.suggestedActions }, turn?)

/-! ### Supporting lemmas -/

lemma isPrefixOf_length {l₁ l₂ : List Char} (h : l₁.isPrefixOf l₂ = true) :
    l₁.length ≤ l₂.length := by
  induction l₁ generalizing l₂ with
  | nil => simp
  | cons a as ih =>
      cases l₂ with
      | nil => simp [List.isPrefixOf] at h
      | cons b bs =>
          simp only [List.isPrefixOf, Bool.and_eq_true] at h
          simpa using ih h.2

lemma containsSub_length {s pat : List Char} (h : containsSub s pat = true) :
    pat.length ≤ s.length := by
  induction s with
  | nil =>
      simp [containsSub, List.isEmpty_iff] at h
      simp [h]
  | cons c t ih =>
      simp only [containsSub, Bool.or_eq_true] at h
      rcases h with h | h
      · exact isPrefixOf_length h
      · exact le_trans (ih h) (by simp)

lemma intentPatterns_phrase_pos :
    ∀ ip ∈ intentPatterns, ∀ p ∈ ip.2, 0 < p.length := by decide

lemma mem_candList {ml : String} {table : List (IntentType × List String)}
    {x : IntentType × ℚ} :
    x ∈ candList ml table ↔
      ∃ ip ∈ table, ∃ p ∈ ip.2, pyIn p ml = true ∧ x = (ip.1, patConf p ml) := by
  induction table with
  | nil => simp [candList]
  | cons ip rest ih =>
      simp only [candList, List.mem_append, List.mem_map, List.mem_filter, ih,
        List.mem_cons]
      constructor
      · rintro (⟨p, ⟨hp, hin⟩, rfl⟩ | ⟨jp, hjp, p, hp, hin, rfl⟩)
        · exact ⟨ip, Or.inl rfl, p, hp, hin, rfl⟩
        · exact ⟨jp, Or.inr hjp, p, hp, hin, rfl⟩
      · rintro ⟨jp, hjp | hjp, p, hp, hin, rfl⟩
        · subst hjp
          exact Or.inl ⟨p, ⟨hp, hin⟩, rfl⟩
        · exact Or.inr ⟨jp, hjp, p, hp, hin, rfl⟩

lemma candidates_bounds {msg : String} {x : IntentType × ℚ}
    (hx : x ∈ candidates msg) : 0 < x.2 ∧ x.2 ≤ 1 := by
  rcases mem_candList.mp hx with ⟨ip, hip, p, hp, hin, rfl⟩
  have hppos : 0 < p.length := intentPatterns_phrase_pos ip hip p hp
  have hle : p.length ≤ (pyLower msg).length := by
    have h2 : p.data.length ≤ (pyLower msg).data.length := containsSub_length hin
    exact h2
  have hmlpos : 0 < (pyLower msg).length := lt_of_lt_of_le hppos hle
  have h0 : (0 : ℚ) < ((pyLower msg).length : ℚ) := Nat.cast_pos.mpr hmlpos
  constructor
  · show 0 < (p.length : ℚ) / ((pyLower msg).length : ℚ)
    exact div_pos (Nat.cast_pos.mpr hppos) h0
  · show (p.length : ℚ) / ((pyLower msg).length : ℚ) ≤ 1
    rw [div_le_one h0]
    exact Nat.cast_le.mpr hle

lemma classifyByPattern_nonneg (msg : String) : 0 ≤ (classifyByPattern msg).2 := by
  rw [classifyByPattern_eq]
  exact foldl_updBest_ge_init _ _

lemma classifyByPattern_le_one (msg : String) : (classifyByPattern msg).2 ≤ 1 := by
  rw [classifyByPattern_eq]
  exact foldl_updBest_le_of_ub _ _ 1 zero_le_one
    (fun x hx => (candidates_bounds hx).2)

lemma generateResponse_error {env : Env} {intent : IntentType} {msg : String}
    {cid sid : Option String}
    (h : handleIntent env intent msg cid = .error ()) :
    generateResponse env msg intent cid sid = apologyResponse := by
  simp [generateResponse, h]

lemma processMessage_fst (env : Env) (msg : String) (cid sid : Option String) :
    (processMessage env msg cid sid).1 =
      { message := (generateResponse env msg (classifyIntent env msg).1 cid sid).message,
        intent := (classifyIntent env msg).1,
        confidence := (classifyIntent env msg).2,
        suggestedActions :=
          (generateResponse env msg (classifyIntent env msg).1 cid sid).suggestedActions } := by
  rfl

lemma processMessage_of_handler_error {env : Env} {msg : String}
    {cid sid : Option String}
    (h : handleIntent env (classifyIntent env msg).1 msg cid = .error ()) :
    (processMessage env msg cid sid).1 =
      { message := apologyResponse.message,
        intent := (classifyIntent env msg).1,
        confidence := (classifyIntent env msg).2,
        suggestedActions := ["Contact Support", "Try Again"] } := by
  rw [processMessage_fst, generateResponse_error h]
  rfl

lemma handleOrderStatus_db_error {env : Env} {msg oid : String}
    {cid : Option String}
    (hE : extractOrderId msg = some oid)
    (hdb : env.getOrderById oid = .error ()) :
    handleOrderStatus env msg cid = .error () := by
  simp [handleOrderStatus, hE, hdb, Bind.bind, Except.bind]

lemma handleReturnRequest_db_error {env : Env} {msg oid : String}
    {cid : Option String}
    (hE : extractOrderId msg = some oid)
    (hdb : env.getOrderById oid = .error ()) :
    handleReturnRequest env msg cid = .error () := by
  simp [handleReturnRequest, hE, hdb, Bind.bind, Except.bind]

/-! ### Concrete environments for closed statements -/

/-- Environment whose `get_order_by_id` always raises; no OpenAI credential
configured; `MIN_CONFIDENCE` at its `config.py` default. -/
def dbRaiseEnv : Env where
  getOrderById := fun _ => .error ()
  getOrdersByCustomer := fun _ => .ok []
  searchProducts := fun _ _ => .ok []
  openaiApiKey := ""
  minConfidence := MIN_CONFIDENCE
  externalResponse := .error ()
  appendTurn := fun _ => .ok ()

/-- Environment with a credential whose external classifier answers
`"greeting,-0.5"`: a reply that parses, with a negative confidence. -/
def envNeg : Env where
  getOrderById := fun _ => .ok none
  getOrdersByCustomer := fun _ => .ok []
  searchProducts := fun _ _ => .ok []
  openaiApiKey := "k"
  minConfidence := MIN_CONFIDENCE
  externalResponse := .ok "greeting,-0.5"
  appendTurn := fun _ => .ok ()

/-- Environment with a credential whose external classifier answers
malformed text. -/
def envMalformed : Env where
  getOrderById := fun _ => .ok none
  getOrdersByCustomer := fun _ => .ok []
  searchProducts := fun _ _ => .ok []
  openaiApiKey := "k"
  minConfidence := MIN_CONFIDENCE
  externalResponse := .ok "nonsense"
  appendTurn := fun _ => .ok ()

/-- Environment whose lookups succeed but find nothing. -/
def okEnv : Env where
  getOrderById := fun _ => .ok none
  getOrdersByCustomer := fun _ => .ok []
  searchProducts := fun _ _ => .ok []
  openaiApiKey := ""
  minConfidence := MIN_CONFIDENCE
  externalResponse := .error ()
  appendTurn := fun _ => .ok ()

/-- Environment knowing a delivered order `A1` and a processing order `B2`. -/
def deliveredEnv : Env where
  getOrderById := fun oid =>
    .ok (if oid = "A1" then
           some { orderId := "A1", productName := "RTX 4090",
                  orderStatus := "Delivered", returnStatus := none }
         else if oid = "B2" then
           some { orderId := "B2", productName := "Shield TV",
                  orderStatus := "Processing", returnStatus := none }
         else none)
  getOrdersByCustomer := fun _ => .ok []
  searchProducts := fun _ _ => .ok []
  openaiApiKey := ""
  minConfidence := MIN_CONFIDENCE
  externalResponse := .error ()
  appendTurn := fun _ => .ok ()

/-! ### The claims -/

/-- C4: the pattern-matching step lower-cases the message and, over all
(intent, phrase) pairs of the fixed table in table order, returns the pair
with the highest confidence `len(phrase)/len(lowered message)` among the
matching pairs, keeping the first-seen pair on ties (any decomposition of
the candidate list with strictly smaller confidences before the element and
no larger confidence after it pins the result); with no matching phrase it
returns `(unknown, 0.0)`. -/
theorem claim_c4 : ∀ msg : String,
    (candidates msg = [] → classifyByPattern msg = (IntentType.unknown, 0)) ∧
    (∀ l₁ m l₂, candidates msg = l₁ ++ m :: l₂ →
       (∀ y ∈ l₁, y.2 < m.2) → (∀ y ∈ l₂, y.2 ≤ m.2) →
       classifyByPattern msg = m) := by
  intro msg
  constructor
  · intro h
    rw [classifyByPattern_eq, h]
    rfl
  · intro l₁ m l₂ h h1 h2
    have hm : m ∈ candidates msg := by
      rw [h]
      simp
    have hpos := (candidates_bounds hm).1
    rw [classifyByPattern_eq, h]
    exact foldl_updBest_first_max l₁ l₂ m (IntentType.unknown, 0) hpos h1 h2

/-- C4 witness: on "hello" the candidate list is the single pair
`(greeting, 1)` and the scan returns it. -/
theorem claim_c4_witness :
    candidates "hello" = [] ++ (IntentType.greeting, 1) :: [] ∧
    classifyByPattern "hello" = (IntentType.greeting, 1) := by
  have hc : candidates "hello" = [] ++ (IntentType.greeting, 1) :: [] := by
    with_unfolding_all decide
  exact ⟨hc, (claim_c4 "hello").2 [] (IntentType.greeting, 1) [] hc
    (by simp) (by simp)⟩

/-- C10: the pattern-matching step is total on every string, including the
empty one: whenever the confidence division is evaluated (that is, whenever
a table phrase is contained in the lowered message), the phrase is non-empty
and the lowered message is at least as long, so the divisor is positive;
and on the empty string the step returns `(unknown, 0.0)` without failing. -/
theorem claim_c10 :
    (∀ (msg : String) (ip : IntentType × List String) (p : String),
       ip ∈ intentPatterns → p ∈ ip.2 → pyIn p (pyLower msg) = true →
       0 < (pyLower msg).length ∧ 0 < p.length ∧ p.length ≤ (pyLower msg).length) ∧
    classifyByPattern "" = (IntentType.unknown, 0) := by
  constructor
  · intro msg ip p hip hp hin
    have hppos := intentPatterns_phrase_pos ip hip p hp
    have hle : p.length ≤ (pyLower msg).length := by
      have h2 : p.data.length ≤ (pyLower msg).data.length := containsSub_length hin
      exact h2
    exact ⟨lt_of_lt_of_le hppos hle, hppos, hle⟩
  · with_unfolding_all decide

/-- C10 witness: the phrase "help" of the faq row matches the message
"help", with positive divisor. -/
theorem claim_c10_witness :
    0 < (pyLower "help").length ∧ 0 < "help".length ∧
      "help".length ≤ (pyLower "help").length :=
  claim_c10.1 "help"
    (IntentType.faq, ["help", "question", "how to", "what if", "can you help", "support"])
    "help" (by decide) (by decide) (by decide)

/-- C5: the external fallback decides the result exactly when the pattern
confidence is strictly below the configured threshold (whose default is
0.7); with no credential it returns `(unknown, 0.0)` without consulting the
external response at all; a raising external call, or a response that fails
to parse (malformed, unknown intent name, non-numeric confidence), is caught
and mapped to `(unknown, 0.0)`. -/
theorem claim_c5 : ∀ (env : Env) (msg : String),
    (env.minConfidence ≤ (classifyByPattern msg).2 →
       classifyIntent env msg
         = ((classifyByPattern msg).1, min (classifyByPattern msg).2 1)) ∧
    ((classifyByPattern msg).2 < env.minConfidence →
       classifyIntent env msg
         = ((classifyWithOpenai env msg).1, min (classifyWithOpenai env msg).2 1)) ∧
    (env.openaiApiKey = "" → classifyWithOpenai env msg = (IntentType.unknown, 0)) ∧
    (env.openaiApiKey = "" → ∀ r,
       classifyWithOpenai { env with externalResponse := r } msg
         = classifyWithOpenai env msg) ∧
    (env.externalResponse = .error () →
       classifyWithOpenai env msg = (IntentType.unknown, 0)) ∧
    (∀ content, env.externalResponse = .ok content → parseClassification content = none →
       classifyWithOpenai env msg = (IntentType.unknown, 0)) ∧
    MIN_CONFIDENCE = 7/10 := by
  intro env msg
  refine ⟨?_, ?_, ?_, ?_, ?_, ?_, rfl⟩
  · intro h
    have hn : ¬ ((classifyByPattern msg).2 < env.minConfidence) := not_lt.mpr h
    simp [classifyIntent, hn]
  · intro h
    simp [classifyIntent, h]
  · intro h
    simp [classifyWithOpenai, h]
  · intro h r
    simp [classifyWithOpenai, h]
  · intro h
    by_cases hk : env.openaiApiKey = "" <;> simp [classifyWithOpenai, hk, h]
  · intro content hc hp
    by_cases hk : env.openaiApiKey = "" <;> simp [classifyWithOpenai, hk, hc, hp]

/-- C5 witness: a confident pattern match is returned as-is; "zzz" falls
back; the fallback with no credential, with a raising call, and with a
malformed reply each give `(unknown, 0.0)`. -/
theorem claim_c5_witness :
    classifyIntent dbRaiseEnv "track order"
        = ((classifyByPattern "track order").1, min (classifyByPattern "track order").2 1) ∧
    classifyIntent envNeg "zzz"
        = ((classifyWithOpenai envNeg "zzz").1, min (classifyWithOpenai envNeg "zzz").2 1) ∧
    classifyWithOpenai dbRaiseEnv "zzz" = (IntentType.unknown, 0) ∧
    classifyWithOpenai envMalformed "zzz" = (IntentType.unknown, 0) :=
  ⟨(claim_c5 dbRaiseEnv "track order").1 (by with_unfolding_all decide),
   (claim_c5 envNeg "zzz").2.1 (by with_unfolding_all decide),
   (claim_c5 dbRaiseEnv "zzz").2.2.2.2.1 rfl,
   (claim_c5 envMalformed "zzz").2.2.2.2.2.1 "nonsense" rfl (by decide)⟩

/-- C1 counterexample: with `get_order_by_id` raising on every id, the
message "track order X1" (classified order_status with confidence 11/14)
yields the rephrase apology of `_generate_response`, with the classified
intent and confidence — not the technical-difficulty reply with intent
unknown and confidence 0.0 asserted by the claim. -/
theorem claim_c1_counterexample :
    (processMessage dbRaiseEnv "track order X1" none none).1.intent ≠ IntentType.unknown ∧
    (processMessage dbRaiseEnv "track order X1" none none).1.confidence ≠ 0 ∧
    (processMessage dbRaiseEnv "track order X1" none none).1.message
      ≠ degradedResponse.message ∧
    (processMessage dbRaiseEnv "track order X1" none none).1
      = { message := apologyResponse.message, intent := IntentType.orderStatus,
          confidence := 11/14, suggestedActions := ["Contact Support", "Try Again"] } := by
  with_unfolding_all decide

/-- C1 amended: if `get_order_by_id` raises for the order id extracted from
the message while an order-status or return-request intent is being handled,
`process_message` still returns a well-formed result and never propagates
the exception; but the exception is caught one level down, in
`_generate_response`, so the reply is the fixed rephrase apology with
suggested actions ["Contact Support", "Try Again"], while the intent and
confidence fields keep the classified values (not unknown and 0.0). -/
theorem claim_c1_amended : ∀ (env : Env) (msg : String) (cid sid : Option String)
    (oid : String),
    extractOrderId msg = some oid →
    env.getOrderById oid = .error () →
    ((classifyIntent env msg).1 = IntentType.orderStatus ∨
     (classifyIntent env msg).1 = IntentType.returnRequest) →
    (processMessage env msg cid sid).1 =
      { message := apologyResponse.message,
        intent := (classifyIntent env msg).1,
        confidence := (classifyIntent env msg).2,
        suggestedActions := ["Contact Support", "Try Again"] } := by
  intro env msg cid sid oid hE hdb hint
  apply processMessage_of_handler_error
  rcases hint with hi | hi <;> rw [hi]
  · exact @handleOrderStatus_db_error env msg oid cid hE hdb
  · exact @handleReturnRequest_db_error env msg oid cid hE hdb

/-- C1 witness: the amended claim applied to the raising environment and the
message "track order X1". -/
theorem claim_c1_witness :
    (processMessage dbRaiseEnv "track order X1" none (some "s")).1 =
      { message := apologyResponse.message,
        intent := (classifyIntent dbRaiseEnv "track order X1").1,
        confidence := (classifyIntent dbRaiseEnv "track order X1").2,
        suggestedActions := ["Contact Support", "Try Again"] } :=
  claim_c1_amended dbRaiseEnv "track order X1" none (some "s") "X1"
    (by decide) rfl (Or.inl (by with_unfolding_all decide))

/-- C7: when classification succeeds with (i, c) but the dispatched handler
raises, `process_message` returns the fixed apology reply with suggested
actions ["Contact Support", "Try Again"] while the intent and confidence
fields keep the classified i and c. -/
theorem claim_c7 : ∀ (env : Env) (msg : String) (cid sid : Option String),
    handleIntent env (classifyIntent env msg).1 msg cid = .error () →
    (processMessage env msg cid sid).1 =
      { message := "I apologize, but I couldn\x27t process your request. Please try rephrasing your question.",
        intent := (classifyIntent env msg).1,
        confidence := (classifyIntent env msg).2,
        suggestedActions := ["Contact Support", "Try Again"] } := by
  intro env msg cid sid h
  exact processMessage_of_handler_error h

/-- C7 witness: the raising environment with the message "track order B7". -/
theorem claim_c7_witness :
    (processMessage dbRaiseEnv "track order B7" none none).1 =
      { message := "I apologize, but I couldn\x27t process your request. Please try rephrasing your question.",
        intent := (classifyIntent dbRaiseEnv "track order B7").1,
        confidence := (classifyIntent dbRaiseEnv "track order B7").2,
        suggestedActions := ["Contact Support", "Try Again"] } :=
  claim_c7 dbRaiseEnv "track order B7" none none (by with_unfolding_all rfl)

/-- C2 counterexample: with a credential configured and the external
classifier answering "greeting,-0.5", the message "zzz" (no pattern match)
is classified with confidence -1/2: the final `min(confidence, 1.0)` clamps
only from above, so the surfaced confidence is negative, outside [0,1]. -/
theorem claim_c2_counterexample :
    classifyIntent envNeg "zzz" = (IntentType.greeting, -1/2) ∧
    (classifyIntent envNeg "zzz").2 < 0 ∧
    (processMessage envNeg "zzz" none none).1.confidence < 0 := by
  with_unfolding_all decide

/-- C2 amended: the surfaced confidence is always at most 1, and it lies in
[0,1] on the pattern path (threshold met) and whenever the external
classifier's parsed confidence is non-negative (in particular whenever that
path fails or is skipped); only an external reply that parses to a negative
confidence can push it below 0, because the final clamp is only
`min(confidence, 1.0)`. -/
theorem claim_c2_amended : ∀ (env : Env) (msg : String),
    (classifyIntent env msg).2 ≤ 1 ∧
    (0 ≤ (classifyByPattern msg).2 ∧ (classifyByPattern msg).2 ≤ 1) ∧
    (env.minConfidence ≤ (classifyByPattern msg).2 →
       0 ≤ (classifyIntent env msg).2 ∧ (classifyIntent env msg).2 ≤ 1) ∧
    (0 ≤ (classifyWithOpenai env msg).2 → 0 ≤ (classifyIntent env msg).2) := by
  intro env msg
  have hnn := classifyByPattern_nonneg msg
  have hub := classifyByPattern_le_one msg
  refine ⟨?_, ⟨hnn, hub⟩, ?_, ?_⟩
  · by_cases h : (classifyByPattern msg).2 < env.minConfidence <;>
      simp [classifyIntent, h, min_le_right]
  · intro h
    have hn : ¬ ((classifyByPattern msg).2 < env.minConfidence) := not_lt.mpr h
    constructor
    · simp only [classifyIntent, hn, if_false]
      exact le_min hnn zero_le_one
    · by_cases h2 : (classifyByPattern msg).2 < env.minConfidence <;>
        simp [classifyIntent, h2, min_le_right]
  · intro h
    by_cases h2 : (classifyByPattern msg).2 < env.minConfidence
    · simp only [classifyIntent, h2, if_true]
      exact le_min h zero_le_one
    · simp only [classifyIntent, h2, if_false]
      exact le_min hnn zero_le_one

/-- C2 witness: the confident pattern match "hello" stays in [0,1], and a
skipped fallback (no credential) keeps the confidence non-negative. -/
theorem claim_c2_witness :
    (0 ≤ (classifyIntent envNeg "hello").2 ∧ (classifyIntent envNeg "hello").2 ≤ 1) ∧
    0 ≤ (classifyIntent dbRaiseEnv "zzz").2 :=
  ⟨(claim_c2_amended envNeg "hello").2.2.1 (by with_unfolding_all decide),
   (claim_c2_amended dbRaiseEnv "zzz").2.2.2 (by with_unfolding_all decide)⟩

/-- C3 counterexample: on "order id: AB12" the first regex
`order\s+(\w+)` already matches, capturing "id", so `_extract_order_id`
returns "id", not the "AB12" the claim asserts. -/
theorem claim_c3_counterexample :
    extractOrderId "order id: AB12" = some "id" ∧
    extractOrderId "order id: AB12" ≠ some "AB12" := by
  decide

/-- C3 amended: `_extract_order_id` tries its three patterns in order
(`order <token>`, `orderid: <token>`, `order id: <token>`),
case-insensitively, and returns the captured token of the first pattern
that matches, or none; in particular, on "order id: AB12" the first pattern
already matches with token "id" (the third pattern is shadowed), while
"What is the status of order 52768?" yields "52768". -/
theorem claim_c3_amended : ∀ msg : String,
    ((∀ r, reSearch tryPat1 msg.data = some r → extractOrderId msg = some r) ∧
     (reSearch tryPat1 msg.data = none →
        ∀ r, reSearch tryPat2 msg.data = some r → extractOrderId msg = some r) ∧
     (reSearch tryPat1 msg.data = none → reSearch tryPat2 msg.data = none →
        extractOrderId msg = reSearch tryPat3 msg.data)) ∧
    extractOrderId "order id: AB12" = some "id" ∧
    extractOrderId "What is the status of order 52768?" = some "52768" := by
  intro msg
  refine ⟨⟨?_, ?_, ?_⟩, by decide, by decide⟩
  · intro r h
    simp [extractOrderId, h]
  · intro h1 r h2
    simp [extractOrderId, h1, h2]
  · intro h1 h2
    simp [extractOrderId, h1, h2]

/-- C3 witness: the first pattern fires on "order AB", and with the first
pattern failing the second fires on "orderid: Z9". -/
theorem claim_c3_witness :
    extractOrderId "order AB" = some "AB" ∧
    extractOrderId "orderid: Z9" = some "Z9" :=
  ⟨(claim_c3_amended "order AB").1.1 "AB" (by decide),
   (claim_c3_amended "orderid: Z9").1.2.1 (by decide) "Z9" (by decide)⟩

/-- C6: the return-request handler proceeds by cases on the extracted order
id: no id extracted asks for one; an id whose lookup finds nothing gets the
not-found reply; a found order with status exactly "Delivered" gets the
eligible-for-return reply asking for a reason (with "Provide Return Reason"
among the suggested actions); any other status gets a reply stating the
current status, without offering to proceed with the return. -/
theorem claim_c6 : ∀ (env : Env) (msg : String) (cid : Option String),
    (extractOrderId msg = none →
       handleReturnRequest env msg cid = .ok
         { message := "To process a return, please provide your order ID.",
           suggestedActions := ["Provide Order ID", "View Return Policy", "Contact Support"] }) ∧
    (∀ oid, extractOrderId msg = some oid → env.getOrderById oid = .ok none →
       handleReturnRequest env msg cid = .ok
         { message := "I couldn\x27t find order " ++ oid ++ ". Please check the order ID and try again.",
           suggestedActions := ["Check Order ID", "Contact Support"] }) ∧
    (∀ oid order, extractOrderId msg = some oid →
       env.getOrderById oid = .ok (some order) → order.orderStatus = "Delivered" →
       handleReturnRequest env msg cid = .ok
         { message := "Your order " ++ oid ++ " is eligible for return. Please provide a reason for the return.",
           suggestedActions := ["Provide Return Reason", "View Return Policy", "Contact Support"] } ∧
       "Provide Return Reason" ∈
         (["Provide Return Reason", "View Return Policy", "Contact Support"] : List String)) ∧
    (∀ oid order, extractOrderId msg = some oid →
       env.getOrderById oid = .ok (some order) → order.orderStatus ≠ "Delivered" →
       handleReturnRequest env msg cid = .ok
         { message := "Your order " ++ oid ++ " is currently " ++ order.orderStatus ++
             ". Returns are only available for delivered orders.",
           suggestedActions := ["Check Order Status", "Contact Support"] } ∧
       "Provide Return Reason" ∉ (["Check Order Status", "Contact Support"] : List String)) := by
  intro env msg cid
  refine ⟨?_, ?_, ?_, ?_⟩
  · intro h
    simp [handleReturnRequest, h, pure, Except.pure]
  · intro oid h hdb
    simp [handleReturnRequest, h, hdb, Bind.bind, Except.bind, pure, Except.pure]
  · intro oid order h hdb hst
    refine ⟨?_, by simp⟩
    simp [handleReturnRequest, h, hdb, hst, Bind.bind, Except.bind, pure, Except.pure]
  · intro oid order h hdb hst
    refine ⟨?_, by simp⟩
    simp [handleReturnRequest, h, hdb, hst, Bind.bind, Except.bind, pure, Except.pure]

/-- C6 witness: with order A1 delivered and order B2 processing, the four
branches fire on "order A1", "order B2", "order C3" and "no id here". -/
theorem claim_c6_witness :
    handleReturnRequest deliveredEnv "no id here" none = .ok
      { message := "To process a return, please provide your order ID.",
        suggestedActions := ["Provide Order ID", "View Return Policy", "Contact Support"] } ∧
    handleReturnRequest deliveredEnv "order C3" none = .ok
      { message := "I couldn\x27t find order " ++ "C3" ++ ". Please check the order ID and try again.",
        suggestedActions := ["Check Order ID", "Contact Support"] } ∧
    handleReturnRequest deliveredEnv "order A1" none = .ok
      { message := "Your order " ++ "A1" ++ " is eligible for return. Please provide a reason for the return.",
        suggestedActions := ["Provide Return Reason", "View Return Policy", "Contact Support"] } ∧
    handleReturnRequest deliveredEnv "order B2" none = .ok
      { message := "Your order " ++ "B2" ++ " is currently " ++ "Processing" ++
          ". Returns are only available for delivered orders.",
        suggestedActions := ["Check Order Status", "Contact Support"] } :=
  ⟨(claim_c6 deliveredEnv "no id here" none).1 (by decide),
   (claim_c6 deliveredEnv "order C3" none).2.1 "C3" (by decide) rfl,
   ((claim_c6 deliveredEnv "order A1" none).2.2.1 "A1"
      { orderId := "A1", productName := "RTX 4090",
        orderStatus := "Delivered", returnStatus := none }
      (by decide) rfl rfl).1,
   ((claim_c6 deliveredEnv "order B2" none).2.2.2 "B2"
      { orderId := "B2", productName := "Shield TV",
        orderStatus := "Processing", returnStatus := none }
      (by decide) rfl (by decide)).1⟩

/-- C8: when a (truthy) session id is supplied, the orchestrator hands the
conversation store exactly the ConversationTurn built from the session id,
optional customer id, input message, reply, classified intent and
confidence; and the returned result is unaffected by the store's outcome
(append failures are swallowed), so the reply is identical to the reply
when logging succeeds. -/
theorem claim_c8 : ∀ (env : Env) (msg : String) (cid sid : Option String),
    (pyTruthy sid = true →
       (processMessage env msg cid sid).2 = some
         { sessionId := sid.getD "", customerId := cid, message := msg,
           response := (generateResponse env msg (classifyIntent env msg).1 cid sid).message,
           intent := (classifyIntent env msg).1,
           confidence := (classifyIntent env msg).2 }) ∧
    (∀ ap, (processMessage { env with appendTurn := ap } msg cid sid).1
        = (processMessage env msg cid sid).1) ∧
    (∀ ap, (processMessage { env with appendTurn := ap } msg cid sid).2
        = (processMessage env msg cid sid).2) := by
  intro env msg cid sid
  refine ⟨?_, fun ap => rfl, fun ap => rfl⟩
  intro h
  simp [processMessage, h]

/-- C8 witness: a concrete session id produces the expected turn, and a
failing store leaves the result unchanged. -/
theorem claim_c8_witness :
    (processMessage okEnv "hello" none (some "s1")).2 = some
      { sessionId := (some "s1" : Option String).getD "", customerId := none,
        message := "hello",
        response := (generateResponse okEnv "hello" (classifyIntent okEnv "hello").1 none (some "s1")).message,
        intent := (classifyIntent okEnv "hello").1,
        confidence := (classifyIntent okEnv "hello").2 } ∧
    (processMessage { okEnv with appendTurn := fun _ => .error () } "hello" none (some "s1")).1
      = (processMessage okEnv "hello" none (some "s1")).1 :=
  ⟨(claim_c8 okEnv "hello" none (some "s1")).1 (by decide),
   (claim_c8 okEnv "hello" none (some "s1")).2.1 (fun _ => .error ())⟩

/-- The Data Access Collaborator answers every read without raising (lookup
misses are `ok none` / `ok []`, not errors). -/
def dbTotal (env : Env) : Prop :=
  (∀ oid, ∃ v, env.getOrderById oid = .ok v) ∧
  (∀ c, ∃ l, env.getOrdersByCustomer c = .ok l) ∧
  (∀ q n, ∃ l, env.searchProducts q n = .ok l)

lemma str_len_append (s t : String) : (s ++ t).length = s.length + t.length :=
  List.length_append s.data t.data

lemma str_len_zero {s : String} (h : s.length = 0) : s = "" := by
  cases s with
  | mk d =>
      cases d with
      | nil => rfl
      | cons c cs => exact absurd (h : (c :: cs).length = 0) (by simp)

lemma str_append_ne_empty {s : String} (t : String) (h : s ≠ "") : s ++ t ≠ "" := by
  intro he
  apply h
  apply str_len_zero
  have hl : (s ++ t).length = 0 := by rw [he]; rfl
  rw [str_len_append] at hl
  omega

lemma faq_answers_ne : ∀ kv ∈ faqResponses, kv.2 ≠ "" := by decide

/-- C9: under a non-raising Data Access Collaborator, every intent handler
(including unknown), on every message and optional customer id — absent
extracted entities and empty lookups included — returns a result with a
non-empty reply and a non-empty suggested-action list. -/
theorem claim_c9 : ∀ (env : Env) (intent : IntentType) (msg : String)
    (cid : Option String), dbTotal env →
    ∃ r, handleIntent env intent msg cid = .ok r ∧
      r.message ≠ "" ∧ r.suggestedActions ≠ [] := by
  intro env intent msg cid h
  obtain ⟨hOrder, hCust, hSearch⟩ := h
  cases intent with
  | orderStatus =>
      cases hE : extractOrderId msg with
      | some oid =>
          obtain ⟨v, hv⟩ := hOrder oid
          cases v with
          | some order =>
              cases hrs : pyTruthy order.returnStatus with
              | true =>
                  simp [handleIntent, handleOrderStatus, hE, hv, hrs,
                    Bind.bind, Except.bind, pure, Except.pure]
                  exact str_append_ne_empty _ (str_append_ne_empty _
                    (str_append_ne_empty _ (str_append_ne_empty _
                      (str_append_ne_empty _ (str_append_ne_empty _
                        (str_append_ne_empty _ (by decide)))))))
              | false =>
                  simp [handleIntent, handleOrderStatus, hE, hv, hrs,
                    Bind.bind, Except.bind, pure, Except.pure]
                  exact str_append_ne_empty _ (str_append_ne_empty _
                    (str_append_ne_empty _ (str_append_ne_empty _ (by decide))))
          | none =>
              simp [handleIntent, handleOrderStatus, hE, hv,
                Bind.bind, Except.bind, pure, Except.pure]
              exact str_append_ne_empty _ (str_append_ne_empty _ (by decide))
      | none =>
          cases hc : pyTruthy cid with
          | true =>
              obtain ⟨l, hl⟩ := hCust (cid.getD "")
              cases he : l.isEmpty with
              | true =>
                  simp [handleIntent, handleOrderStatus, hE, hc, hl, he,
                    Bind.bind, Except.bind, pure, Except.pure]
              | false =>
                  simp [handleIntent, handleOrderStatus, hE, hc, hl, he,
                    Bind.bind, Except.bind, pure, Except.pure]
                  exact str_append_ne_empty _ (str_append_ne_empty _ (by decide))
          | false =>
              simp [handleIntent, handleOrderStatus, hE, hc,
                Bind.bind, Except.bind, pure, Except.pure]
  | productInfo =>
      cases hE : extractProductName msg with
      | some pname =>
          obtain ⟨l, hl⟩ := hSearch pname 5
          cases he : l.isEmpty with
          | true =>
              simp [handleIntent, handleProductInfo, hE, hl, he,
                Bind.bind, Except.bind, pure, Except.pure]
              exact str_append_ne_empty _ (str_append_ne_empty _ (by decide))
          | false =>
              simp [handleIntent, handleProductInfo, hE, hl, he,
                Bind.bind, Except.bind, pure, Except.pure]
              exact str_append_ne_empty _ (str_append_ne_empty _
                (str_append_ne_empty _ (by decide)))
      | none =>
          simp [handleIntent, handleProductInfo, hE,
            Bind.bind, Except.bind, pure, Except.pure]
  | returnRequest =>
      cases hE : extractOrderId msg with
      | some oid =>
          obtain ⟨v, hv⟩ := hOrder oid
          cases v with
          | some order =>
              cases hst : decide (order.orderStatus = "Delivered") with
              | true =>
                  have hst2 : order.orderStatus = "Delivered" := of_decide_eq_true hst
                  simp [handleIntent, handleReturnRequest, hE, hv, hst2,
                    Bind.bind, Except.bind, pure, Except.pure]
                  exact str_append_ne_empty _ (str_append_ne_empty _ (by decide))
              | false =>
                  have hst2 : ¬ order.orderStatus = "Delivered" := of_decide_eq_false hst
                  simp [handleIntent, handleReturnRequest, hE, hv, hst2,
                    Bind.bind, Except.bind, pure, Except.pure]
                  exact str_append_ne_empty _ (str_append_ne_empty _
                    (str_append_ne_empty _ (str_append_ne_empty _ (by decide))))
          | none =>
              simp [handleIntent, handleReturnRequest, hE, hv,
                Bind.bind, Except.bind, pure, Except.pure]
              exact str_append_ne_empty _ (str_append_ne_empty _ (by decide))
      | none =>
          simp [handleIntent, handleReturnRequest, hE,
            Bind.bind, Except.bind, pure, Except.pure]
  | faq =>
      cases hf : faqResponses.find? (fun kv => pyIn kv.1 (pyLower msg)) with
      | some kv =>
          have hmem : kv ∈ faqResponses := List.mem_of_find?_eq_some hf
          simp [handleIntent, handleFaq, hf, pure, Except.pure]
          exact faq_answers_ne kv hmem
      | none =>
          simp [handleIntent, handleFaq, hf, pure, Except.pure]
  | storeHours =>
      simp [handleIntent, handleStoreHours, pure, Except.pure]
  | contact =>
      simp [handleIntent, handleContact, pure, Except.pure]
  | greeting =>
      simp [handleIntent, handleGreeting, pure, Except.pure]
  | goodbye =>
      simp [handleIntent, handleGoodbye, pure, Except.pure]
  | unknown =>
      simp [handleIntent, handleUnknown, pure, Except.pure]

/-- C9 witness: the order-status handler with no extractable id, no customer
id and an empty store still yields a non-empty reply and suggestions. -/
theorem claim_c9_witness :
    ∃ r, handleIntent okEnv IntentType.orderStatus "x" none = .ok r ∧
      r.message ≠ "" ∧ r.suggestedActions ≠ [] :=
  claim_c9 okEnv IntentType.orderStatus "x" none
    ⟨fun _ => ⟨none, rfl⟩, fun _ => ⟨[], rfl⟩, fun _ _ => ⟨[], rfl⟩⟩

end AutoCS
